import Mathlib

/-!
Shallow embedding of `src/core/connection_handle.cxx` from the
couchbase-php-client repository: the option decoder/validator helpers, the
error-context builders, the operation facade's response handling, the
connection teardown sequence and the cluster-version probe.

Conventions of the embedding:
* A PHP `zval` is `PhpValue`; a nullable `const zval*` argument is
  `Option PhpValue` (`none` models the C++ null pointer, `PhpValue.nullv`
  models a zval of type `IS_NULL`).
* `core_error_info` with a falsy `ec` (success) is modelled by returning
  `Except.ok`; a truthy `ec` is `Except.error` carrying the error record.
  The human-readable messages produced by the repository's own `fmt` format
  strings are reproduced verbatim; messages that interpolate values of the
  external `std::error_code` type are abstracted to `""` (the claims under
  verification never inspect them).
* Fields of external request/response structs that this file only ever
  writes are modelled as `Option` fields that are `none` until the decoder
  writes them; fields whose defaults the code itself reads back
  (`durability_level`) keep their concrete default.
* Machine integers are `Int`/`Nat`; the unsigned casts the C++ performs are
  explicit `% 2^w` operations.
-/

/-- A PHP dynamic value (`zval`): null, boolean, integer (`zend_long`),
string, or array. PHP arrays are modelled as association lists from string
keys to values; `zend_symtable_str_find` is first-match lookup. -/
inductive PhpValue where
  | nullv
  | boolv (b : Bool)
  | longv (n : Int)
  | strv (s : String)
  | arrv (entries : List (String × PhpValue))

/-- `Z_TYPE_P(v) == IS_ARRAY`. -/
def PhpValue.is_arr : PhpValue → Bool
  | .arrv _ => true
  | _ => false

/-- `Z_TYPE_P(v) == IS_NULL`. -/
def PhpValue.is_null : PhpValue → Bool
  | .nullv => true
  | _ => false

/-- `zend_symtable_str_find(Z_ARRVAL_P(options), name)`: first entry with
the given string key. -/
def zfind (entries : List (String × PhpValue)) (name : String) : Option PhpValue :=
  (entries.find? (fun kv => kv.1 = name)).map Prod.snd

/-- Lookup through a nullable options pointer. The C++ call sites that use
this form (`Z_ARRVAL_P(options)` without a preceding type check) have
undefined behaviour unless `options` is an array; the non-array case is
modelled as an absent key and is never exercised by the theorems below. -/
def zfind_opt (options : Option PhpValue) (name : String) : Option PhpValue :=
  match options with
  | some (.arrv entries) => zfind entries name
  | _ => none

/-- Reading the string payload of a zval (`Z_STRVAL_P`/`Z_STRLEN_P`).
Undefined in C++ for non-string zvals; modelled as `""` there, never
exercised by the theorems below. -/
def phpRawString : PhpValue → String
  | .strv s => s
  | _ => ""

/-- Error codes referenced by this translation unit. `other_error` stands
for the remaining members of the external error-code enums. -/
inductive Errc where
  | invalid_argument
  | parsing_failure
  | service_not_available
  | document_not_found
  | other_error (code : Nat)
deriving DecidableEq, Repr

/-- `couchbase::io::retry_reason` (external enum, closed set). -/
inductive io_retry_reason where
  | do_not_retry
  | socket_not_available
  | service_not_available
  | node_not_available
  | kv_not_my_vbucket
  | kv_collection_outdated
  | kv_error_map_retry_indicated
  | kv_locked
  | kv_temporary_failure
  | kv_sync_write_in_progress
  | kv_sync_write_re_commit_in_progress
  | service_response_code_indicated
  | socket_closed_while_in_flight
  | circuit_breaker_open
  | query_prepared_statement_failure
  | query_index_not_found
  | analytics_temporary_failure
  | search_too_many_requests
  | views_temporary_failure
  | views_no_active_partition
  | unknown
deriving DecidableEq, Repr

/-- `retry_reason_to_string` (connection_handle.cxx:34-82). -/
def retry_reason_to_string : io_retry_reason → String
  | .do_not_retry => "do_not_retry"
  | .socket_not_available => "socket_not_available"
  | .service_not_available => "service_not_available"
  | .node_not_available => "node_not_available"
  | .kv_not_my_vbucket => "kv_not_my_vbucket"
  | .kv_collection_outdated => "kv_collection_outdated"
  | .kv_error_map_retry_indicated => "kv_error_map_retry_indicated"
  | .kv_locked => "kv_locked"
  | .kv_temporary_failure => "kv_temporary_failure"
  | .kv_sync_write_in_progress => "kv_sync_write_in_progress"
  | .kv_sync_write_re_commit_in_progress => "kv_sync_write_re_commit_in_progress"
  | .service_response_code_indicated => "service_response_code_indicated"
  | .socket_closed_while_in_flight => "socket_closed_while_in_flight"
  | .circuit_breaker_open => "circuit_breaker_open"
  | .query_prepared_statement_failure => "query_prepared_statement_failure"
  | .query_index_not_found => "query_index_not_found"
  | .analytics_temporary_failure => "analytics_temporary_failure"
  | .search_too_many_requests => "search_too_many_requests"
  | .views_temporary_failure => "views_temporary_failure"
  | .views_no_active_partition => "views_no_active_partition"
  | .unknown => "unknown"

/-- `ctx.error_map_info` payload: `{name, description}`. -/
structure ErrorMapInfo where
  name : String
  description : String
deriving DecidableEq, Repr

/-- `ctx.enhanced_error_info` payload: `{reference, context}`. -/
structure EnhancedErrorInfo where
  reference : String
  context : String
deriving DecidableEq, Repr

/-- The engine's raw key-value failure context (`error_context::key_value`),
as consumed by `build_error_context`. `opaque_` models the C++ field named
after a Lean keyword. -/
structure error_context_key_value where
  ec : Option Errc := none
  id_bucket : String := ""
  id_scope : String := ""
  id_collection : String := ""
  id_key : String := ""
  opaque_ : Nat := 0
  cas : Nat := 0
  status_code : Option Nat := none
  error_map_info : Option ErrorMapInfo := none
  enhanced_error_info : Option EnhancedErrorInfo := none
  last_dispatched_to : Option String := none
  last_dispatched_from : Option String := none
  retry_attempts : Nat := 0
  retry_reasons : List io_retry_reason := []
deriving DecidableEq, Repr

/-- The typed key-value error context produced by this repository
(`key_value_error_context`). Optional output fields start absent. -/
structure key_value_error_context where
  bucket : String := ""
  scope : String := ""
  collection : String := ""
  id : String := ""
  opaque_ : Nat := 0
  cas : Nat := 0
  status_code : Option Nat := none
  error_map_name : Option String := none
  error_map_description : Option String := none
  enhanced_error_reference : Option String := none
  enhanced_error_context : Option String := none
  last_dispatched_to : Option String := none
  last_dispatched_from : Option String := none
  retry_attempts : Nat := 0
  retry_reasons : List String := []
deriving DecidableEq, Repr

/-- `build_error_context` (connection_handle.cxx:84-114), field by field.
Line 103 of the source assigns `ctx.error_map_info->description` to
`out.enhanced_error_context`; the dereference is modelled with `Option.map`
(when `error_map_info` is absent the C++ dereference of the empty optional
is undefined behaviour).  The `std::set` used for retry reasons is
modelled as the image list of `retry_reason_to_string`. -/
def build_error_context (ctx : error_context_key_value) : key_value_error_context :=
  { bucket := ctx.id_bucket
    scope := ctx.id_scope
    collection := ctx.id_collection
    id := ctx.id_key
    opaque_ := ctx.opaque_
    cas := ctx.cas
    status_code := ctx.status_code.map (fun c => c % 65536)
    error_map_name := ctx.error_map_info.map ErrorMapInfo.name
    error_map_description := ctx.error_map_info.map ErrorMapInfo.description
    enhanced_error_reference := ctx.enhanced_error_info.map EnhancedErrorInfo.reference
    enhanced_error_context :=
      if ctx.enhanced_error_info.isSome then ctx.error_map_info.map ErrorMapInfo.description
      else none
    last_dispatched_to := ctx.last_dispatched_to
    last_dispatched_from := ctx.last_dispatched_from
    retry_attempts := ctx.retry_attempts
    retry_reasons := ctx.retry_reasons.map retry_reason_to_string }

/-- The engine's raw query failure context (`error_context::query`). -/
structure error_context_query where
  ec : Option Errc := none
  client_context_id : String := ""
  statement : String := ""
  parameters : String := ""
  first_error_message : String := ""
  first_error_code : Nat := 0
  http_status : Nat := 0
  http_body : String := ""
  retry_attempts : Nat := 0
  retry_reasons : List io_retry_reason := []
deriving DecidableEq, Repr

/-- The typed query error context (`query_error_context`). -/
structure query_error_context where
  client_context_id : String := ""
  statement : String := ""
  parameters : String := ""
  first_error_message : String := ""
  first_error_code : Nat := 0
  http_status : Nat := 0
  http_body : String := ""
  retry_attempts : Nat := 0
  retry_reasons : List String := []
deriving DecidableEq, Repr

/-- `build_query_error_context` (connection_handle.cxx:116-134). -/
def build_query_error_context (ctx : error_context_query) : query_error_context :=
  { client_context_id := ctx.client_context_id
    statement := ctx.statement
    parameters := ctx.parameters
    first_error_message := ctx.first_error_message
    first_error_code := ctx.first_error_code
    http_status := ctx.http_status
    http_body := ctx.http_body
    retry_attempts := ctx.retry_attempts
    retry_reasons := ctx.retry_reasons.map retry_reason_to_string }

/-- The engine's raw analytics failure context
(`error_context::analytics`), field-identical to the query context. -/
structure error_context_analytics where
  ec : Option Errc := none
  client_context_id : String := ""
  statement : String := ""
  parameters : String := ""
  first_error_message : String := ""
  first_error_code : Nat := 0
  http_status : Nat := 0
  http_body : String := ""
  retry_attempts : Nat := 0
  retry_reasons : List io_retry_reason := []
deriving DecidableEq, Repr

/-- The typed analytics error context (`analytics_error_context`). -/
structure analytics_error_context where
  client_context_id : String := ""
  statement : String := ""
  parameters : String := ""
  first_error_message : String := ""
  first_error_code : Nat := 0
  http_status : Nat := 0
  http_body : String := ""
  retry_attempts : Nat := 0
  retry_reasons : List String := []
deriving DecidableEq, Repr

/-- `build_analytics_error_context` (connection_handle.cxx:136-154). -/
def build_analytics_error_context (ctx : error_context_analytics) : analytics_error_context :=
  { client_context_id := ctx.client_context_id
    statement := ctx.statement
    parameters := ctx.parameters
    first_error_message := ctx.first_error_message
    first_error_code := ctx.first_error_code
    http_status := ctx.http_status
    http_body := ctx.http_body
    retry_attempts := ctx.retry_attempts
    retry_reasons := ctx.retry_reasons.map retry_reason_to_string }

/-- The engine's raw view failure context (`error_context::view`). -/
structure error_context_view where
  ec : Option Errc := none
  client_context_id : String := ""
  design_document_name : String := ""
  view_name : String := ""
  query_string : String := ""
  http_status : Nat := 0
  http_body : String := ""
  retry_attempts : Nat := 0
  retry_reasons : List io_retry_reason := []
deriving DecidableEq, Repr

/-- The typed view error context (`view_query_error_context`). -/
structure view_query_error_context where
  client_context_id : String := ""
  design_document_name : String := ""
  view_name : String := ""
  query_string : String := ""
  http_status : Nat := 0
  http_body : String := ""
  retry_attempts : Nat := 0
  retry_reasons : List String := []
deriving DecidableEq, Repr

/-- `build_view_query_error_context` (connection_handle.cxx:156-173). -/
def build_view_query_error_context (ctx : error_context_view) : view_query_error_context :=
  { client_context_id := ctx.client_context_id
    design_document_name := ctx.design_document_name
    view_name := ctx.view_name
    query_string := ctx.query_string
    http_status := ctx.http_status
    http_body := ctx.http_body
    retry_attempts := ctx.retry_attempts
    retry_reasons := ctx.retry_reasons.map retry_reason_to_string }

/-- The engine's raw search failure context (`error_context::search`). -/
structure error_context_search where
  ec : Option Errc := none
  client_context_id : String := ""
  index_name : String := ""
  query : String := ""
  parameters : String := ""
  http_status : Nat := 0
  http_body : String := ""
  retry_attempts : Nat := 0
  retry_reasons : List io_retry_reason := []
deriving DecidableEq, Repr

/-- The typed search error context (`search_error_context`). -/
structure search_error_context where
  client_context_id : String := ""
  index_name : String := ""
  query : String := ""
  parameters : String := ""
  http_status : Nat := 0
  http_body : String := ""
  retry_attempts : Nat := 0
  retry_reasons : List String := []
deriving DecidableEq, Repr

/-- `build_search_query_error_context` (connection_handle.cxx:175-192). -/
def build_search_query_error_context (ctx : error_context_search) : search_error_context :=
  { client_context_id := ctx.client_context_id
    index_name := ctx.index_name
    query := ctx.query
    parameters := ctx.parameters
    http_status := ctx.http_status
    http_body := ctx.http_body
    retry_attempts := ctx.retry_attempts
    retry_reasons := ctx.retry_reasons.map retry_reason_to_string }

/-- The engine's raw HTTP-management failure context
(`error_context::http`), consumed by the search-index-upsert handler. -/
structure error_context_http where
  ec : Option Errc := none
  client_context_id : String := ""
  method : String := ""
  path : String := ""
  http_status : Nat := 0
  http_body : String := ""
  retry_attempts : Nat := 0
  retry_reasons : List io_retry_reason := []
  last_dispatched_from : Option String := none
  last_dispatched_to : Option String := none
deriving DecidableEq, Repr

/-- The typed HTTP error context (`http_error_context`). -/
structure http_error_context where
  client_context_id : String := ""
  method : String := ""
  path : String := ""
  http_status : Nat := 0
  http_body : String := ""
  retry_attempts : Nat := 0
  retry_reasons : List String := []
  last_dispatched_from : Option String := none
  last_dispatched_to : Option String := none
deriving DecidableEq, Repr

/-- `build_http_error_context` (connection_handle.cxx:194-213). -/
def build_http_error_context (ctx : error_context_http) : http_error_context :=
  { client_context_id := ctx.client_context_id
    method := ctx.method
    path := ctx.path
    http_status := ctx.http_status
    http_body := ctx.http_body
    retry_attempts := ctx.retry_attempts
    retry_reasons := ctx.retry_reasons.map retry_reason_to_string
    last_dispatched_from := ctx.last_dispatched_from
    last_dispatched_to := ctx.last_dispatched_to }

/-- The structured context attached to an operation error
(`core_error_info` carries one per failing subsystem). -/
inductive error_context_variant where
  | kv (c : key_value_error_context)
  | query (c : query_error_context)
  | analytics (c : analytics_error_context)
  | view (c : view_query_error_context)
  | search (c : search_error_context)
  | http (c : http_error_context)
deriving DecidableEq, Repr

/-- `core_error_info` with a truthy error code (the falsy/success case is
`Except.ok` in this embedding). -/
structure core_error_info where
  ec : Errc
  message : String := ""
  context : Option error_context_variant := none
deriving DecidableEq, Repr

/-- `true` on the `Except.error` branch. -/
def isErr {α β : Type} : Except α β → Bool
  | .error _ => true
  | .ok _ => false

/-- `couchbase::protocol::durability_level`. -/
inductive DurabilityLevel where
  | none
  | majority
  | majority_and_persist_to_active
  | persist_to_majority
deriving DecidableEq, Repr

/-- The durability fields of a mutation request: the level (default
`none`, the default the code reads back at the gate) and the durability
timeout write performed by the decoder. -/
structure durability_state where
  durability_level : DurabilityLevel := DurabilityLevel.none
  durability_timeout : Option Int := none
deriving DecidableEq, Repr

/-- `cb_assign_timeout` (connection_handle.cxx:456-483). Result `ok none`
means the `timeout` field was left untouched; `ok (some n)` means it was
assigned `n` milliseconds. -/
def cb_assign_timeout (options : Option PhpValue) : Except core_error_info (Option Int) :=
  match options with
  | Option.none => .ok none
  | some .nullv => .ok none
  | some (.arrv entries) =>
    match zfind entries "timeoutMilliseconds" with
    | Option.none => .ok none
    | some .nullv => .ok none
    | some (.longv n) => .ok (some n)
    | some _ =>
      .error { ec := .invalid_argument, message := "expected timeoutMilliseconds to be a number in the options" }
  | some _ => .error { ec := .invalid_argument, message := "expected array for options argument" }

/-- The `if`/`else if` chain of `cb_assign_durability` (lines 510-522) that
matches the durability level literal; `Option.none` is the final `else`
branch (unknown literal). -/
def durability_level_of_string : String → Option DurabilityLevel
  | "none" => some DurabilityLevel.none
  | "majority" => some DurabilityLevel.majority
  | "majorityAndPersistToActive" => some DurabilityLevel.majority_and_persist_to_active
  | "persistToMajority" => some DurabilityLevel.persist_to_majority
  | _ => Option.none

/-- `cb_assign_durability` (connection_handle.cxx:485-541): decodes
`durabilityLevel`, and only when the just-assigned level is not `none`
looks up `durabilityTimeoutSeconds`. -/
def cb_assign_durability (st : durability_state) (options : Option PhpValue) :
    Except core_error_info durability_state :=
  match options with
  | Option.none => .ok st
  | some .nullv => .ok st
  | some (.arrv entries) =>
    match zfind entries "durabilityLevel" with
    | Option.none => .ok st
    | some .nullv => .ok st
    | some (.strv s) =>
      match durability_level_of_string s with
      | some lvl =>
        let st := { st with durability_level := lvl }
        if st.durability_level = DurabilityLevel.none then .ok st
        else
          match zfind entries "durabilityTimeoutSeconds" with
          | Option.none => .ok st
          | some .nullv => .ok st
          | some (.longv n) => .ok { st with durability_timeout := some n }
          | some _ =>
            .error { ec := .invalid_argument
                     message := "expected durabilityTimeoutSeconds to be a number in the options" }
      | Option.none =>
        .error { ec := .invalid_argument, message := s!"unknown durabilityLevel: {s}" }
    | some _ =>
      .error { ec := .invalid_argument
               message := "expected durabilityLevel to be a string in the authenticator" }
  | some _ => .error { ec := .invalid_argument, message := "expected array for options argument" }

/-- `cb_assign_boolean` (connection_handle.cxx:543-573). `ok none` leaves
the field untouched, `ok (some b)` assigns `b`. -/
def cb_assign_boolean (options : Option PhpValue) (name : String) :
    Except core_error_info (Option Bool) :=
  match options with
  | Option.none => .ok none
  | some .nullv => .ok none
  | some (.arrv entries) =>
    match zfind entries name with
    | Option.none => .ok none
    | some .nullv => .ok none
    | some (.boolv b) => .ok (some b)
    | some _ =>
      .error { ec := .invalid_argument
               message := s!"expected {name} to be a boolean value in the options" }
  | some _ => .error { ec := .invalid_argument, message := "expected array for options argument" }

/-- `cb_assign_integer` (connection_handle.cxx:575-603). `ok none` leaves
the field untouched, `ok (some n)` assigns the `zend_long` `n` (call sites
narrow it to the field's unsigned width). -/
def cb_assign_integer (options : Option PhpValue) (name : String) :
    Except core_error_info (Option Int) :=
  match options with
  | Option.none => .ok none
  | some .nullv => .ok none
  | some (.arrv entries) =>
    match zfind entries name with
    | Option.none => .ok none
    | some .nullv => .ok none
    | some (.longv n) => .ok (some n)
    | some _ =>
      .error { ec := .invalid_argument
               message := s!"expected {name} to be a integer value in the options" }
  | some _ => .error { ec := .invalid_argument, message := "expected array for options argument" }

/-- `cb_assign_string` (connection_handle.cxx:605-632). -/
def cb_assign_string (options : Option PhpValue) (name : String) :
    Except core_error_info (Option String) :=
  match options with
  | Option.none => .ok none
  | some .nullv => .ok none
  | some (.arrv entries) =>
    match zfind entries name with
    | Option.none => .ok none
    | some .nullv => .ok none
    | some (.strv s) => .ok (some s)
    | some _ =>
      .error { ec := .invalid_argument
               message := s!"expected {name} to be a string value in the options" }
  | some _ => .error { ec := .invalid_argument, message := "expected array for options argument" }

/-- The `ZEND_HASH_FOREACH_VAL` loop of `cb_assign_vector_of_strings`
(lines 654-665): every item must be a string, the first non-string item
aborts with `invalid_argument`. -/
def cb_vector_of_strings_items (name : String) :
    List PhpValue → Except core_error_info (List String)
  | [] => .ok []
  | item :: rest =>
    match item with
    | .strv s =>
      match cb_vector_of_strings_items name rest with
      | .ok tail => .ok (s :: tail)
      | .error e => .error e
    | _ =>
      .error { ec := .invalid_argument
               message := s!"expected \"{name}\" option to be an array of strings, detected non-string value" }

/-- `cb_assign_vector_of_strings` (connection_handle.cxx:634-667). The
decoded strings are appended (`emplace_back`) to the existing field. -/
def cb_assign_vector_of_strings (field : List String) (options : Option PhpValue)
    (name : String) : Except core_error_info (List String) :=
  match options with
  | Option.none => .ok field
  | some .nullv => .ok field
  | some (.arrv entries) =>
    match zfind entries name with
    | Option.none => .ok field
    | some .nullv => .ok field
    | some (.arrv items) =>
      match cb_vector_of_strings_items name (items.map Prod.snd) with
      | .ok xs => .ok (field ++ xs)
      | .error e => .error e
    | some _ =>
      .error { ec := .invalid_argument
               message := s!"expected array for options argument \"{name}\"" }
  | some _ => .error { ec := .invalid_argument, message := "expected array for options" }

/-- `cb_get_integer` (connection_handle.cxx:669-697): returns the
value-default pair collapsed into `Except`; every non-error early return
carries the default value `0`. -/
def cb_get_integer (options : Option PhpValue) (name : String) :
    Except core_error_info Int :=
  match options with
  | Option.none => .ok 0
  | some .nullv => .ok 0
  | some (.arrv entries) =>
    match zfind entries name with
    | Option.none => .ok 0
    | some .nullv => .ok 0
    | some (.longv n) => .ok n
    | some _ =>
      .error { ec := .invalid_argument
               message := s!"expected {name} to be a integer value in the options" }
  | some _ => .error { ec := .invalid_argument, message := "expected array for options argument" }

/-- The `std::uint64_t` conversion applied when `cb_get_integer<uint64_t>`
or a `uint64` field assignment narrows a `zend_long`. -/
def to_uint64 (n : Int) : Nat := (n % (2 ^ 64 : Int)).toNat

/-- The `std::uint16_t` conversion for `mutation_token::partition_id`. -/
def to_uint16 (n : Int) : Nat := (n % (2 ^ 16 : Int)).toNat

/-- Lowercase hex rendering, the `fmt::format("{:x}", v)` used for cas,
partition uuid and sequence number output fields. -/
def toHex (n : Nat) : String := String.mk (Nat.toDigits 16 n)

/-- `query_request::scan_consistency_type`. -/
inductive ScanConsistencyType where
  | not_bounded
  | request_plus
deriving DecidableEq, Repr

/-- `query_request::profile_mode`. -/
inductive ProfileMode where
  | off
  | phases
  | timings
deriving DecidableEq, Repr

/-- `couchbase::mutation_token` (zero-initialised by `{}`): `uint16`
partition id, `uint64` partition uuid and sequence number, bucket name. -/
structure mutation_token where
  partition_id : Nat := 0
  partition_uuid : Nat := 0
  sequence_number : Nat := 0
  bucket_name : String := ""
deriving DecidableEq, Repr

/-- The fields of `couchbase::operations::query_request` that
`connection_handle::query` writes; each `Option` field is `none` until the
decoder writes it. -/
structure query_request where
  statement : String
  timeout : Option Int := none
  scan_consistency : Option ScanConsistencyType := none
  scan_cap : Option Int := none
  pipeline_cap : Option Int := none
  pipeline_batch : Option Int := none
  max_parallelism : Option Int := none
  profile : Option ProfileMode := none
  readonly : Option Bool := none
  flex_index : Option Bool := none
  adhoc : Option Bool := none
  positional_parameters : Option (List String) := none
  named_parameters : Option (List (String × String)) := none
  raw : Option (List (String × String)) := none
  mutation_state : Option (List mutation_token) := none
  client_context_id : Option String := none
  metrics : Option Bool := none
  preserve_expiry : Option Bool := none
  scope_name : Option String := none
  bucket_name : Option String := none
deriving DecidableEq, Repr

/-- The `ZEND_HASH_FOREACH_VAL` loop over `consistentWith`
(connection_handle.cxx:982-999).  Mirrors the source exactly: each
iteration zero-initialises a token and then calls the `cb_assign_*`
helpers against the whole top-level `options` bag — the loop item itself
is never read. -/
def consistent_with_loop (options : Option PhpValue) :
    List PhpValue → Except core_error_info (List mutation_token)
  | [] => .ok []
  | _item :: rest => do
    let token : mutation_token := {}
    let a ← cb_assign_integer options "partitionId"
    let token := match a with
      | Option.none => token
      | some n => { token with partition_id := to_uint16 n }
    let a ← cb_assign_integer options "partitionUuid"
    let token := match a with
      | Option.none => token
      | some n => { token with partition_uuid := to_uint64 n }
    let a ← cb_assign_integer options "sequenceNumber"
    let token := match a with
      | Option.none => token
      | some n => { token with sequence_number := to_uint64 n }
    let s ← cb_assign_string options "bucketName"
    let token := match s with
      | Option.none => token
      | some v => { token with bucket_name := v }
    let tail ← consistent_with_loop options rest
    pure (token :: tail)

/-- `cb_assign_timeout(request, options)` applied to the query request
(connection_handle.cxx:864-866). -/
def query_step_timeout (options : Option PhpValue) (req : query_request) :
    Except core_error_info query_request :=
  match cb_assign_timeout options with
  | .error e => .error e
  | .ok Option.none => .ok req
  | .ok (some n) => .ok { req with timeout := some n }

/-- The `scanConsistency` switch (connection_handle.cxx:867-887):
`cb_get_integer<uint64_t>` followed by the `case 1 / case 2 / default`
dispatch that errors only for positive unrecognized codes. -/
def query_step_scan_consistency (options : Option PhpValue) (req : query_request) :
    Except core_error_info query_request :=
  match cb_get_integer options "scanConsistency" with
  | .error e => .error e
  | .ok sc =>
    let scan_consistency := to_uint64 sc
    if scan_consistency = 1 then
      .ok { req with scan_consistency := some ScanConsistencyType.not_bounded }
    else if scan_consistency = 2 then
      .ok { req with scan_consistency := some ScanConsistencyType.request_plus }
    else if 0 < scan_consistency then
      .error { ec := Errc.invalid_argument
               message := s!"invalid value used for scan consistency: {scan_consistency}" }
    else .ok req

/-- The four `cb_assign_integer` calls for `scanCap`, `pipelineCap`,
`pipelineBatch`, `maxParallelism` (connection_handle.cxx:888-899). -/
def query_step_caps (options : Option PhpValue) (req : query_request) :
    Except core_error_info query_request :=
  match cb_assign_integer options "scanCap" with
  | .error e => .error e
  | .ok a =>
    let req := match a with
      | Option.none => req
      | some n => { req with scan_cap := some n }
    match cb_assign_integer options "pipelineCap" with
    | .error e => .error e
    | .ok a =>
      let req := match a with
        | Option.none => req
        | some n => { req with pipeline_cap := some n }
      match cb_assign_integer options "pipelineBatch" with
      | .error e => .error e
      | .ok a =>
        let req := match a with
          | Option.none => req
          | some n => { req with pipeline_batch := some n }
        match cb_assign_integer options "maxParallelism" with
        | .error e => .error e
        | .ok a =>
          match a with
          | Option.none => .ok req
          | some n => .ok { req with max_parallelism := some n }

/-- The `profile` switch (connection_handle.cxx:900-924). -/
def query_step_profile (options : Option PhpValue) (req : query_request) :
    Except core_error_info query_request :=
  match cb_get_integer options "profile" with
  | .error e => .error e
  | .ok p =>
    let profile := to_uint64 p
    if profile = 1 then .ok { req with profile := some ProfileMode.off }
    else if profile = 2 then .ok { req with profile := some ProfileMode.phases }
    else if profile = 3 then .ok { req with profile := some ProfileMode.timings }
    else if 0 < profile then
      .error { ec := Errc.invalid_argument
               message := s!"invalid value used for profile: {profile}" }
    else .ok req

/-- The `readonly`, `flexIndex`, `adHoc` boolean assignments
(connection_handle.cxx:926-934). -/
def query_step_booleans (options : Option PhpValue) (req : query_request) :
    Except core_error_info query_request :=
  match cb_assign_boolean options "readonly" with
  | .error e => .error e
  | .ok b =>
    let req := match b with
      | Option.none => req
      | some v => { req with readonly := some v }
    match cb_assign_boolean options "flexIndex" with
    | .error e => .error e
    | .ok b =>
      let req := match b with
        | Option.none => req
        | some v => { req with flex_index := some v }
      match cb_assign_boolean options "adHoc" with
      | .error e => .error e
      | .ok b =>
        match b with
        | Option.none => .ok req
        | some v => .ok { req with adhoc := some v }

/-- The `positionalParameters`, `namedParameters` and `raw` blocks
(connection_handle.cxx:935-976): each key is used only when it is present
and holds an array, anything else leaves the request untouched. -/
def query_step_parameters (options : Option PhpValue) (req : query_request) :
    query_request :=
  let req := match zfind_opt options "positionalParameters" with
    | some (.arrv items) =>
      { req with positional_parameters := some ((items.map Prod.snd).map phpRawString) }
    | _ => req
  let req := match zfind_opt options "namedParameters" with
    | some (.arrv items) =>
      { req with named_parameters := some (items.map (fun kv => (kv.1, phpRawString kv.2))) }
    | _ => req
  match zfind_opt options "raw" with
  | some (.arrv items) =>
    { req with raw := some (items.map (fun kv => (kv.1, phpRawString kv.2))) }
  | _ => req

/-- The `consistentWith` block (connection_handle.cxx:977-1002). -/
def query_step_consistent_with (options : Option PhpValue) (req : query_request) :
    Except core_error_info query_request :=
  match zfind_opt options "consistentWith" with
  | some (.arrv items) =>
    match consistent_with_loop options (items.map Prod.snd) with
    | .error e => .error e
    | .ok vectors => .ok { req with mutation_state := some vectors }
  | _ => .ok req

/-- The trailing `clientContextId`, `metrics`, `preserveExpiry`,
`scopeName`, `bucketName` assignments (connection_handle.cxx:1003-1017). -/
def query_step_tail (options : Option PhpValue) (req : query_request) :
    Except core_error_info query_request :=
  match cb_assign_string options "clientContextId" with
  | .error e => .error e
  | .ok s =>
    let req := match s with
      | Option.none => req
      | some v => { req with client_context_id := some v }
    match cb_assign_boolean options "metrics" with
    | .error e => .error e
    | .ok b =>
      let req := match b with
        | Option.none => req
        | some v => { req with metrics := some v }
      match cb_assign_boolean options "preserveExpiry" with
      | .error e => .error e
      | .ok b =>
        let req := match b with
          | Option.none => req
          | some v => { req with preserve_expiry := some v }
        match cb_assign_string options "scopeName" with
        | .error e => .error e
        | .ok s =>
          let req := match s with
            | Option.none => req
            | some v => { req with scope_name := some v }
          match cb_assign_string options "bucketName" with
          | .error e => .error e
          | .ok s =>
            match s with
            | Option.none => .ok req
            | some v => .ok { req with bucket_name := some v }

/-- The option-decoding phase of `connection_handle::query`
(connection_handle.cxx:863-1017), up to but not including the engine call:
the sequential composition of the decoding steps above, short-circuiting
on the first error exactly as the early returns in the source do. -/
def query_decode (statement : String) (options : Option PhpValue) :
    Except core_error_info query_request :=
  match query_step_timeout options { statement := statement } with
  | .error e => .error e
  | .ok req =>
    match query_step_scan_consistency options req with
    | .error e => .error e
    | .ok req =>
      match query_step_caps options req with
      | .error e => .error e
      | .ok req =>
        match query_step_profile options req with
        | .error e => .error e
        | .ok req =>
          match query_step_booleans options req with
          | .error e => .error e
          | .ok req =>
            let req := query_step_parameters options req
            match query_step_consistent_with options req with
            | .error e => .error e
            | .ok req => query_step_tail options req

/-- The option-decoding phase of `connection_handle::document_get`
(connection_handle.cxx:778-808): `withExpiry` and `projections` select
between the plain and the projected request shape; each shape then gets
the timeout assignment. -/
inductive get_request_shape where
  | plain (timeout : Option Int)
  | projected (with_expiry : Bool) (projections : List String) (timeout : Option Int)
deriving DecidableEq, Repr

/-- `document_get` decoding (connection_handle.cxx:778-808). -/
def document_get_decode (options : Option PhpValue) :
    Except core_error_info get_request_shape :=
  match cb_assign_boolean options "withExpiry" with
  | .error e => .error e
  | .ok b =>
    let with_expiry := match b with
      | Option.none => false
      | some v => v
    match cb_assign_vector_of_strings [] options "projections" with
    | .error e => .error e
    | .ok projections =>
      if !with_expiry && projections.isEmpty then
        match cb_assign_timeout options with
        | .error e => .error e
        | .ok t => .ok (get_request_shape.plain t)
      else
        match cb_assign_timeout options with
        | .error e => .error e
        | .ok t => .ok (get_request_shape.projected with_expiry projections t)

/-- The error branch of `impl::key_value_execute`
(connection_handle.cxx:300-315): a truthy `resp.ctx.ec` yields a
`core_error_info` carrying `build_error_context(resp.ctx)`; the
`fmt`-formatted message interpolating the external `std::error_code` is
abstracted to `""`. -/
def key_value_execute_error (ctx : error_context_key_value) : Option core_error_info :=
  match ctx.ec with
  | Option.none => Option.none
  | some e => some { ec := e, message := "", context := some (error_context_variant.kv (build_error_context ctx)) }

/-- `couchbase::operations::upsert_response` (engine boundary): status
context, cas, mutation token. -/
structure upsert_response where
  ctx : error_context_key_value
  cas : Nat := 0
  token : mutation_token := {}
deriving DecidableEq, Repr

/-- `is_mutation_token_valid` (connection_handle.cxx:711-715). -/
def is_mutation_token_valid (token : mutation_token) : Bool :=
  !(token.bucket_name.isEmpty) && 0 < token.partition_uuid

/-- `mutation_token_to_zval` (connection_handle.cxx:699-709): the PHP
output view of a token — hex strings for partition uuid and sequence
number. -/
structure mutation_token_output where
  bucketName : String
  partitionId : Nat
  partitionUuid : String
  sequenceNumber : String
deriving DecidableEq, Repr

/-- `mutation_token_to_zval` as a function. -/
def mutation_token_to_zval (token : mutation_token) : mutation_token_output :=
  { bucketName := token.bucket_name
    partitionId := token.partition_id
    partitionUuid := toHex token.partition_uuid
    sequenceNumber := toHex token.sequence_number }

/-- The PHP output array built by `document_upsert`
(connection_handle.cxx:752-759): `cas` always, `mutationToken` only when
the token is valid. -/
structure upsert_output where
  cas : String
  mutationToken : Option mutation_token_output := none
deriving DecidableEq, Repr

/-- The response-handling phase of `connection_handle::document_upsert`
(connection_handle.cxx:748-760): propagate the engine error, otherwise
build the output array. -/
def document_upsert_result (resp : upsert_response) :
    Except core_error_info upsert_output :=
  match key_value_execute_error resp.ctx with
  | some err => .error err
  | Option.none =>
    .ok { cas := toHex resp.cas
          mutationToken :=
            if is_mutation_token_valid resp.token then some (mutation_token_to_zval resp.token)
            else none }

/-- `couchbase::operations::get_response` (engine boundary). -/
structure get_response where
  ctx : error_context_key_value
  cas : Nat := 0
  flags : Nat := 0
  value : String := ""
deriving DecidableEq, Repr

/-- The output array of a plain `document_get`
(connection_handle.cxx:796-801). -/
structure get_output where
  cas : String
  flags : Nat
  value : String
deriving DecidableEq, Repr

/-- The response-handling phase of the plain branch of
`connection_handle::document_get` (connection_handle.cxx:792-801). -/
def document_get_result (resp : get_response) : Except core_error_info get_output :=
  match key_value_execute_error resp.ctx with
  | some err => .error err
  | Option.none => .ok { cas := toHex resp.cas, flags := resp.flags, value := resp.value }

/-- `couchbase::operations::get_projected_response` (engine boundary). -/
structure get_projected_response where
  ctx : error_context_key_value
  cas : Nat := 0
  flags : Nat := 0
  value : String := ""
  expiry : Option Nat := none
deriving DecidableEq, Repr

/-- The output array of a projected `document_get`
(connection_handle.cxx:813-820). -/
structure get_projected_output where
  cas : String
  flags : Nat
  value : String
  expiry : Option Nat := none
deriving DecidableEq, Repr

/-- The response-handling phase of the projected branch of
`connection_handle::document_get` (connection_handle.cxx:809-821). -/
def document_get_projected_result (resp : get_projected_response) :
    Except core_error_info get_projected_output :=
  match key_value_execute_error resp.ctx with
  | some err => .error err
  | Option.none =>
    .ok { cas := toHex resp.cas, flags := resp.flags, value := resp.value, expiry := resp.expiry }

/-- `couchbase::operations::exists_response` (engine boundary):
`exists_flag` models the value of the response's `exists()` accessor,
which a conforming engine sets to `false` whenever it reports
`document_not_found`. -/
structure exists_response where
  ctx : error_context_key_value
  exists_flag : Bool := false
  deleted : Bool := false
  cas : Nat := 0
  flags : Nat := 0
  datatype : Nat := 0
  expiry : Nat := 0
  sequence_number : Nat := 0
deriving DecidableEq, Repr

/-- The output array of `document_exists`
(connection_handle.cxx:847-856). -/
structure exists_output where
  exists_ : Bool
  deleted : Bool
  cas : String
  flags : Nat
  datatype : Nat
  expiry : Nat
  sequenceNumber : String
deriving DecidableEq, Repr

/-- The output-array construction of `document_exists`
(connection_handle.cxx:847-856). -/
def exists_output_of (resp : exists_response) : exists_output :=
  { exists_ := resp.exists_flag
    deleted := resp.deleted
    cas := toHex resp.cas
    flags := resp.flags
    datatype := resp.datatype
    expiry := resp.expiry
    sequenceNumber := toHex resp.sequence_number }

/-- The response-handling phase of `connection_handle::document_exists`
(connection_handle.cxx:843-857): the error is propagated only when the
engine status is not `document_not_found`; otherwise (including the
`document_not_found` failure) the output array is built and success is
returned. -/
def document_exists_result (resp : exists_response) :
    Except core_error_info exists_output :=
  match key_value_execute_error resp.ctx with
  | some err =>
    if resp.ctx.ec = some Errc.document_not_found then .ok (exists_output_of resp)
    else .error err
  | Option.none => .ok (exists_output_of resp)

/-- The part of `couchbase::operations::query_response` that
`impl::query`'s error branch consumes. -/
structure query_response where
  ctx : error_context_query
deriving DecidableEq, Repr

/-- The error branch of `impl::query` (connection_handle.cxx:317-332):
a truthy `resp.ctx.ec` yields a `core_error_info` carrying
`build_query_error_context(resp.ctx)`. -/
def query_result (resp : query_response) : Except core_error_info query_response :=
  match resp.ctx.ec with
  | some e =>
    .error { ec := e, message := ""
             context := some (error_context_variant.query (build_query_error_context resp.ctx)) }
  | Option.none => .ok resp

/-- The part of `couchbase::operations::analytics_response` that
`impl::analytics_query`'s error branch consumes. -/
structure analytics_response where
  ctx : error_context_analytics
deriving DecidableEq, Repr

/-- The error branch of `impl::analytics_query`
(connection_handle.cxx:334-349): a truthy `resp.ctx.ec` yields a
`core_error_info` carrying `build_analytics_error_context(resp.ctx)`. -/
def analytics_query_result (resp : analytics_response) :
    Except core_error_info analytics_response :=
  match resp.ctx.ec with
  | some e =>
    .error { ec := e, message := ""
             context := some (error_context_variant.analytics (build_analytics_error_context resp.ctx)) }
  | Option.none => .ok resp

/-- The part of `couchbase::operations::document_view_response` that
`impl::view_query`'s error branch consumes. -/
structure document_view_response where
  ctx : error_context_view
deriving DecidableEq, Repr

/-- The error branch of `impl::view_query`
(connection_handle.cxx:351-367): a truthy `resp.ctx.ec` yields a
`core_error_info` carrying `build_view_query_error_context(resp.ctx)`. -/
def view_query_result (resp : document_view_response) :
    Except core_error_info document_view_response :=
  match resp.ctx.ec with
  | some e =>
    .error { ec := e, message := ""
             context := some (error_context_variant.view (build_view_query_error_context resp.ctx)) }
  | Option.none => .ok resp

/-- The part of `couchbase::operations::search_response` that
`impl::search_query`'s error branch consumes. -/
structure search_response where
  ctx : error_context_search
deriving DecidableEq, Repr

/-- The error branch of `impl::search_query`
(connection_handle.cxx:369-385): a truthy `resp.ctx.ec` yields a
`core_error_info` carrying `build_search_query_error_context(resp.ctx)`. -/
def search_query_result (resp : search_response) :
    Except core_error_info search_response :=
  match resp.ctx.ec with
  | some e =>
    .error { ec := e, message := ""
             context := some (error_context_variant.search (build_search_query_error_context resp.ctx)) }
  | Option.none => .ok resp

/-- The part of
`couchbase::operations::management::search_index_upsert_response` that
`impl::search_index_upsert`'s error branch consumes. -/
structure search_index_upsert_response where
  ctx : error_context_http
deriving DecidableEq, Repr

/-- The error branch of `impl::search_index_upsert`
(connection_handle.cxx:387-403): a truthy `resp.ctx.ec` yields a
`core_error_info` carrying `build_http_error_context(resp.ctx)`. -/
def search_index_upsert_result (resp : search_index_upsert_response) :
    Except core_error_info search_index_upsert_response :=
  match resp.ctx.ec with
  | some e =>
    .error { ec := e, message := ""
             context := some (error_context_variant.http (build_http_error_context resp.ctx)) }
  | Option.none => .ok resp

/-- One step of the teardown sequence in `connection_handle::impl::~impl`
(connection_handle.cxx:228-240). `close_completed` is the return of
`f.wait()`, which by the one-shot promise contract happens only after the
close completion handler has fired. -/
inductive TeardownEvent where
  | close_requested
  | close_completed
  | worker_joined
  | handle_released
deriving DecidableEq, Repr

/-- The sequence of teardown steps performed by
`connection_handle::impl::~impl` (connection_handle.cxx:228-240), as a
function of whether the engine handle (`cluster_`) exists and whether the
worker thread is joinable.  Within this program the worker is always
joinable at destruction time because the `connection_handle` constructor
calls `impl::start()` unconditionally. -/
def impl_destructor (has_cluster : Bool) (worker_joinable : Bool) : List TeardownEvent :=
  if has_cluster then
    [TeardownEvent.close_requested, TeardownEvent.close_completed]
      ++ (if worker_joinable then [TeardownEvent.worker_joined] else [])
      ++ [TeardownEvent.handle_released]
  else []

/-- One `cluster_describe_response` from the engine
(`resp.ctx.ec` plus the versions of `resp.info.nodes`). -/
structure cluster_describe_response where
  ec : Option Errc := none
  node_versions : List String := []
deriving DecidableEq, Repr

/-- `connection_handle::impl::cluster_version`
(connection_handle.cxx:247-265).  Each `execute` of a
`cluster_describe_request` consumes the next response from `responses`
(the engine completes every request exactly once; an exhausted list —
which the engine contract rules out — yields the empty string).
`bucket_open_result` is the outcome of the single `bucket_open` call the
fallback branch can make; the recursive retry passes an empty bucket name
and therefore can never open a bucket or recurse again. -/
def cluster_version_impl :
    List cluster_describe_response → Option core_error_info → String → String
  | [], _, _ => ""
  | r :: rest, bucket_open_result, bucket_name =>
    if r.ec = some Errc.service_not_available ∧ bucket_name ≠ "" then
      match bucket_open_result with
      | some _ => ""
      | Option.none => cluster_version_impl rest Option.none ""
    else
      match r.ec, r.node_versions with
      | Option.none, v :: _ => v
      | _, _ => ""

/-- `couchbase::tls_verify_mode`. -/
inductive TlsVerifyMode where
  | peer
  | none_mode
deriving DecidableEq, Repr

/-- The fields of `couchbase::utils::connection_string::options` (plus its
nested tracing/metrics records) that `apply_options` writes; each field is
`none` until the loop assigns it. -/
structure cluster_options where
  analytics_timeout : Option Int := none
  bootstrap_timeout : Option Int := none
  connect_timeout : Option Int := none
  dns_srv_timeout : Option Int := none
  key_value_durable_timeout : Option Int := none
  key_value_timeout : Option Int := none
  management_timeout : Option Int := none
  query_timeout : Option Int := none
  resolve_timeout : Option Int := none
  search_timeout : Option Int := none
  view_timeout : Option Int := none
  max_http_connections : Option Int := none
  config_idle_redial_timeout : Option Int := none
  config_poll_floor : Option Int := none
  config_poll_interval : Option Int := none
  idle_http_connection_timeout : Option Int := none
  tcp_keep_alive_interval : Option Int := none
  enable_clustermap_notification : Option Bool := none
  enable_compression : Option Bool := none
  enable_dns_srv : Option Bool := none
  enable_metrics : Option Bool := none
  enable_mutation_tokens : Option Bool := none
  enable_tcp_keep_alive : Option Bool := none
  enable_tls : Option Bool := none
  enable_tracing : Option Bool := none
  enable_unordered_execution : Option Bool := none
  force_ipv4 : Option Bool := none
  show_queries : Option Bool := none
  network : Option String := none
  trust_certificate : Option String := none
  user_agent_extra : Option String := none
  tls_verify : Option TlsVerifyMode := none
  orphaned_sample_size : Option Int := none
  orphaned_emit_interval : Option Int := none
  threshold_sample_size : Option Int := none
  threshold_emit_interval : Option Int := none
  analytics_threshold : Option Int := none
  eventing_threshold : Option Int := none
  key_value_threshold : Option Int := none
  management_threshold : Option Int := none
  query_threshold : Option Int := none
  search_threshold : Option Int := none
  view_threshold : Option Int := none
  emit_interval : Option Int := none
deriving DecidableEq, Repr

/-- The body of the `ASSIGN_DURATION_OPTION` macro for a matching key
(connection_handle.cxx:1756-1773): null skips, non-integer and negative
values fail, otherwise the field is assigned. -/
def assign_duration_option (key : String) (value : PhpValue) (field : Option Int) :
    Except core_error_info (Option Int) :=
  match value with
  | .nullv => .ok field
  | .longv ms =>
    if ms < 0 then
      .error { ec := Errc.invalid_argument
               message := s!"expected duration as a positive number for {key}" }
    else .ok (some ms)
  | _ =>
    .error { ec := Errc.invalid_argument, message := s!"expected duration as a number for {key}" }

/-- The body of the `ASSIGN_NUMBER_OPTION` macro
(connection_handle.cxx:1775-1786). -/
def assign_number_option (key : String) (value : PhpValue) (field : Option Int) :
    Except core_error_info (Option Int) :=
  match value with
  | .nullv => .ok field
  | .longv n => .ok (some n)
  | _ => .error { ec := Errc.invalid_argument, message := s!"expected number for {key}" }

/-- The body of the `ASSIGN_BOOLEAN_OPTION` macro
(connection_handle.cxx:1788-1805). -/
def assign_boolean_option (key : String) (value : PhpValue) (field : Option Bool) :
    Except core_error_info (Option Bool) :=
  match value with
  | .nullv => .ok field
  | .boolv b => .ok (some b)
  | _ => .error { ec := Errc.invalid_argument, message := s!"expected boolean for {key}" }

/-- The body of the `ASSIGN_STRING_OPTION` macro
(connection_handle.cxx:1807-1823): non-string and empty-string values
fail. -/
def assign_string_option (key : String) (value : PhpValue) (field : Option String) :
    Except core_error_info (Option String) :=
  match value with
  | .nullv => .ok field
  | .strv s =>
    if s.isEmpty then
      .error { ec := Errc.invalid_argument, message := s!"expected non-empty string for {key}" }
    else .ok (some s)
  | _ => .error { ec := Errc.invalid_argument, message := s!"expected string for {key}" }

/-- The `tlsVerify` branch of the `apply_options` loop
(connection_handle.cxx:1873-1892). -/
def assign_tls_verify_option (key : String) (value : PhpValue) (field : Option TlsVerifyMode) :
    Except core_error_info (Option TlsVerifyMode) :=
  match value with
  | .nullv => .ok field
  | .strv s =>
    if s = "peer" then .ok (some TlsVerifyMode.peer)
    else if s = "none" then .ok (some TlsVerifyMode.none_mode)
    else
      .error { ec := Errc.invalid_argument
               message := s!"expected mode for TLS verification ({key}), supported modes are \"peer\" and \"none\"" }
  | _ => .error { ec := Errc.invalid_argument, message := s!"expected string for {key}" }

/-- One iteration of the inner `thresholdLoggingTracerOptions` loop
(connection_handle.cxx:1907-1921). -/
def apply_tracing_option (c : cluster_options) (k : String) (v : PhpValue) :
    Except core_error_info cluster_options :=
  if k = "orphanedSampleSize" then
    match assign_number_option k v c.orphaned_sample_size with
    | .error e => .error e
    | .ok f => .ok { c with orphaned_sample_size := f }
  else if k = "orphanedEmitInterval" then
    match assign_duration_option k v c.orphaned_emit_interval with
    | .error e => .error e
    | .ok f => .ok { c with orphaned_emit_interval := f }
  else if k = "thresholdSampleSize" then
    match assign_number_option k v c.threshold_sample_size with
    | .error e => .error e
    | .ok f => .ok { c with threshold_sample_size := f }
  else if k = "thresholdEmitInterval" then
    match assign_duration_option k v c.threshold_emit_interval with
    | .error e => .error e
    | .ok f => .ok { c with threshold_emit_interval := f }
  else if k = "analyticsThreshold" then
    match assign_duration_option k v c.analytics_threshold with
    | .error e => .error e
    | .ok f => .ok { c with analytics_threshold := f }
  else if k = "eventingThreshold" then
    match assign_duration_option k v c.eventing_threshold with
    | .error e => .error e
    | .ok f => .ok { c with eventing_threshold := f }
  else if k = "keyValueThreshold" then
    match assign_duration_option k v c.key_value_threshold with
    | .error e => .error e
    | .ok f => .ok { c with key_value_threshold := f }
  else if k = "managementThreshold" then
    match assign_duration_option k v c.management_threshold with
    | .error e => .error e
    | .ok f => .ok { c with management_threshold := f }
  else if k = "queryThreshold" then
    match assign_duration_option k v c.query_threshold with
    | .error e => .error e
    | .ok f => .ok { c with query_threshold := f }
  else if k = "searchThreshold" then
    match assign_duration_option k v c.search_threshold with
    | .error e => .error e
    | .ok f => .ok { c with search_threshold := f }
  else if k = "viewThreshold" then
    match assign_duration_option k v c.view_threshold with
    | .error e => .error e
    | .ok f => .ok { c with view_threshold := f }
  else .ok c

/-- The inner tracer-options loop over all entries. -/
def apply_tracing_options (c : cluster_options) :
    List (String × PhpValue) → Except core_error_info cluster_options
  | [] => .ok c
  | (k, v) :: rest =>
    match apply_tracing_option c k v with
    | .error e => .error e
    | .ok c => apply_tracing_options c rest

/-- One iteration of the inner `loggingMeterOptions` loop
(connection_handle.cxx:1938-1941). -/
def apply_meter_option (c : cluster_options) (k : String) (v : PhpValue) :
    Except core_error_info cluster_options :=
  if k = "emitInterval" then
    match assign_duration_option k v c.emit_interval with
    | .error e => .error e
    | .ok f => .ok { c with emit_interval := f }
  else .ok c

/-- The inner meter-options loop over all entries. -/
def apply_meter_options (c : cluster_options) :
    List (String × PhpValue) → Except core_error_info cluster_options
  | [] => .ok c
  | (k, v) :: rest =>
    match apply_meter_option c k v with
    | .error e => .error e
    | .ok c => apply_meter_options c rest

/-- One iteration of the main `apply_options` loop
(connection_handle.cxx:1835-1944): the chain of key comparisons expanded
from the `ASSIGN_*_OPTION` macros (the macro guards test distinct key
literals, so the independent `if`s of the source are equivalent to this
`else if` chain), the `tlsVerify` branch, and the two nested option
bags. -/
def apply_cluster_option (c : cluster_options) (k : String) (v : PhpValue) :
    Except core_error_info cluster_options :=
  if k = "analyticsTimeout" then
    match assign_duration_option k v c.analytics_timeout with
    | .error e => .error e
    | .ok f => .ok { c with analytics_timeout := f }
  else if k = "bootstrapTimeout" then
    match assign_duration_option k v c.bootstrap_timeout with
    | .error e => .error e
    | .ok f => .ok { c with bootstrap_timeout := f }
  else if k = "connectTimeout" then
    match assign_duration_option k v c.connect_timeout with
    | .error e => .error e
    | .ok f => .ok { c with connect_timeout := f }
  else if k = "dnsSrvTimeout" then
    match assign_duration_option k v c.dns_srv_timeout with
    | .error e => .error e
    | .ok f => .ok { c with dns_srv_timeout := f }
  else if k = "keyValueDurableTimeout" then
    match assign_duration_option k v c.key_value_durable_timeout with
    | .error e => .error e
    | .ok f => .ok { c with key_value_durable_timeout := f }
  else if k = "keyValueTimeout" then
    match assign_duration_option k v c.key_value_timeout with
    | .error e => .error e
    | .ok f => .ok { c with key_value_timeout := f }
  else if k = "managementTimeout" then
    match assign_duration_option k v c.management_timeout with
    | .error e => .error e
    | .ok f => .ok { c with management_timeout := f }
  else if k = "queryTimeout" then
    match assign_duration_option k v c.query_timeout with
    | .error e => .error e
    | .ok f => .ok { c with query_timeout := f }
  else if k = "resolveTimeout" then
    match assign_duration_option k v c.resolve_timeout with
    | .error e => .error e
    | .ok f => .ok { c with resolve_timeout := f }
  else if k = "searchTimeout" then
    match assign_duration_option k v c.search_timeout with
    | .error e => .error e
    | .ok f => .ok { c with search_timeout := f }
  else if k = "viewTimeout" then
    match assign_duration_option k v c.view_timeout with
    | .error e => .error e
    | .ok f => .ok { c with view_timeout := f }
  else if k = "maxHttpConnections" then
    match assign_number_option k v c.max_http_connections with
    | .error e => .error e
    | .ok f => .ok { c with max_http_connections := f }
  else if k = "configIdleRedialTimeout" then
    match assign_duration_option k v c.config_idle_redial_timeout with
    | .error e => .error e
    | .ok f => .ok { c with config_idle_redial_timeout := f }
  else if k = "configPollFloor" then
    match assign_duration_option k v c.config_poll_floor with
    | .error e => .error e
    | .ok f => .ok { c with config_poll_floor := f }
  else if k = "configPollInterval" then
    match assign_duration_option k v c.config_poll_interval with
    | .error e => .error e
    | .ok f => .ok { c with config_poll_interval := f }
  else if k = "idleHttpConnectionTimeout" then
    match assign_duration_option k v c.idle_http_connection_timeout with
    | .error e => .error e
    | .ok f => .ok { c with idle_http_connection_timeout := f }
  else if k = "tcpKeepAliveInterval" then
    match assign_duration_option k v c.tcp_keep_alive_interval with
    | .error e => .error e
    | .ok f => .ok { c with tcp_keep_alive_interval := f }
  else if k = "enableClustermapNotification" then
    match assign_boolean_option k v c.enable_clustermap_notification with
    | .error e => .error e
    | .ok f => .ok { c with enable_clustermap_notification := f }
  else if k = "enableCompression" then
    match assign_boolean_option k v c.enable_compression with
    | .error e => .error e
    | .ok f => .ok { c with enable_compression := f }
  else if k = "enableDnsSrv" then
    match assign_boolean_option k v c.enable_dns_srv with
    | .error e => .error e
    | .ok f => .ok { c with enable_dns_srv := f }
  else if k = "enableMetrics" then
    match assign_boolean_option k v c.enable_metrics with
    | .error e => .error e
    | .ok f => .ok { c with enable_metrics := f }
  else if k = "enableMutationTokens" then
    match assign_boolean_option k v c.enable_mutation_tokens with
    | .error e => .error e
    | .ok f => .ok { c with enable_mutation_tokens := f }
  else if k = "enableTcpKeepAlive" then
    match assign_boolean_option k v c.enable_tcp_keep_alive with
    | .error e => .error e
    | .ok f => .ok { c with enable_tcp_keep_alive := f }
  else if k = "enableTls" then
    match assign_boolean_option k v c.enable_tls with
    | .error e => .error e
    | .ok f => .ok { c with enable_tls := f }
  else if k = "enableTracing" then
    match assign_boolean_option k v c.enable_tracing with
    | .error e => .error e
    | .ok f => .ok { c with enable_tracing := f }
  else if k = "enableUnorderedExecution" then
    match assign_boolean_option k v c.enable_unordered_execution with
    | .error e => .error e
    | .ok f => .ok { c with enable_unordered_execution := f }
  else if k = "forceIpv4" then
    match assign_boolean_option k v c.force_ipv4 with
    | .error e => .error e
    | .ok f => .ok { c with force_ipv4 := f }
  else if k = "showQueries" then
    match assign_boolean_option k v c.show_queries with
    | .error e => .error e
    | .ok f => .ok { c with show_queries := f }
  else if k = "network" then
    match assign_string_option k v c.network with
    | .error e => .error e
    | .ok f => .ok { c with network := f }
  else if k = "trustCertificate" then
    match assign_string_option k v c.trust_certificate with
    | .error e => .error e
    | .ok f => .ok { c with trust_certificate := f }
  else if k = "userAgentExtra" then
    match assign_string_option k v c.user_agent_extra with
    | .error e => .error e
    | .ok f => .ok { c with user_agent_extra := f }
  else if k = "tlsVerify" then
    match assign_tls_verify_option k v c.tls_verify with
    | .error e => .error e
    | .ok f => .ok { c with tls_verify := f }
  else if k = "thresholdLoggingTracerOptions" then
    match v with
    | .nullv => .ok c
    | .arrv inner => apply_tracing_options c inner
    | _ =>
      .error { ec := Errc.invalid_argument
               message := s!"expected array for {k} as tracer options" }
  else if k = "loggingMeterOptions" then
    match v with
    | .nullv => .ok c
    | .arrv inner => apply_meter_options c inner
    | _ =>
      .error { ec := Errc.invalid_argument
               message := s!"expected array for {k} as meter options" }
  else .ok c

/-- The main `ZEND_HASH_FOREACH_STR_KEY_VAL` loop of `apply_options`. -/
def apply_options_loop (c : cluster_options) :
    List (String × PhpValue) → Except core_error_info cluster_options
  | [] => .ok c
  | (k, v) :: rest =>
    match apply_cluster_option c k v with
    | .error e => .error e
    | .ok c => apply_options_loop c rest

/-- `apply_options` (connection_handle.cxx:1825-1948): a null pointer, a
PHP null, or any non-array options value is rejected up front with
`invalid_argument`; an array is folded through the per-key rules. -/
def apply_options (options : Option PhpValue) : Except core_error_info cluster_options :=
  match options with
  | some (.arrv entries) => apply_options_loop {} entries
  | _ => .error { ec := Errc.invalid_argument, message := "expected array for cluster options" }

/-- Claim C1: for a raw key-value failure context carrying both
enhanced-error info `{reference := "ref-1", context := "ctx-1"}` and
error-map info `{name := "nm", description := "desc-1"}`,
`build_error_context` copies the enhanced reference verbatim but fills
`enhanced_error_context` with the error-map description `"desc-1"` instead
of the enhanced context `"ctx-1"` — the two enhanced fields are not both
copied from the enhanced-error info. -/
theorem build_error_context_enhanced_context_from_error_map :
    (build_error_context
        { enhanced_error_info := some { reference := "ref-1", context := "ctx-1" }
          error_map_info := some { name := "nm", description := "desc-1" } }).enhanced_error_reference
        = some "ref-1"
    ∧ (build_error_context
        { enhanced_error_info := some { reference := "ref-1", context := "ctx-1" }
          error_map_info := some { name := "nm", description := "desc-1" } }).enhanced_error_context
        = some "desc-1"
    ∧ (build_error_context
        { enhanced_error_info := some { reference := "ref-1", context := "ctx-1" }
          error_map_info := some { name := "nm", description := "desc-1" } }).enhanced_error_context
        ≠ some "ctx-1" := by
  refine ⟨rfl, rfl, ?_⟩
  decide

/-- Claim C2: decoding a query option bag whose `consistentWith` sequence
holds two records with distinct `bucketName`/`partitionId`/`partitionUuid`/
`sequenceNumber` values produces one token per record, but both tokens are
the zero-initialised default — the record elements are never read (and a
top-level `partitionId` key leaks into every token instead). -/
theorem query_consistent_with_ignores_record_elements :
    (query_decode "q"
        (some (.arrv [("consistentWith", .arrv
          [("0", .arrv [("bucketName", .strv "a"), ("partitionId", .longv 1),
                        ("partitionUuid", .longv 2), ("sequenceNumber", .longv 3)]),
           ("1", .arrv [("bucketName", .strv "b"), ("partitionId", .longv 4),
                        ("partitionUuid", .longv 5), ("sequenceNumber", .longv 6)])])]))
      = .ok { statement := "q"
              mutation_state := some
                [{ partition_id := 0, partition_uuid := 0, sequence_number := 0, bucket_name := "" },
                 { partition_id := 0, partition_uuid := 0, sequence_number := 0, bucket_name := "" }] })
    ∧ (query_decode "q"
        (some (.arrv [("consistentWith", .arrv
          [("0", .arrv [("bucketName", .strv "a"), ("partitionId", .longv 1),
                        ("partitionUuid", .longv 2), ("sequenceNumber", .longv 3)]),
           ("1", .arrv [("bucketName", .strv "b"), ("partitionId", .longv 4),
                        ("partitionUuid", .longv 5), ("sequenceNumber", .longv 6)])]),
          ("partitionId", .longv 9)]))
      = .ok { statement := "q"
              mutation_state := some
                [{ partition_id := 9, partition_uuid := 0, sequence_number := 0, bucket_name := "" },
                 { partition_id := 9, partition_uuid := 0, sequence_number := 0, bucket_name := "" }] }) := by
  constructor <;> rfl

/-- Claim C8: when the engine handle exists (and the worker was started,
as the constructor always does), the teardown sequence of
`impl::~impl` is exactly close-request, close-completion wait, worker
join, handle release, in that order; when the handle was never created the
destructor performs none of these steps. -/
theorem impl_destructor_teardown_order :
    impl_destructor true true =
      [TeardownEvent.close_requested, TeardownEvent.close_completed,
       TeardownEvent.worker_joined, TeardownEvent.handle_released]
    ∧ impl_destructor false true = []
    ∧ impl_destructor false false = [] := by
  refine ⟨rfl, rfl, rfl⟩

/-- Claim C10: every per-operation decoder helper accepts a null (or
PHP-null) options bag as success leaving the target at its default
(`ok none`, the unchanged field, or the default `0`), and rejects any
present non-array bag with `invalid_argument`; the cluster-level
`apply_options`, by contrast, rejects even a null options bag with
`invalid_argument`. -/
theorem option_helpers_null_bag_discipline :
    ∀ (v : PhpValue) (name : String) (st : durability_state) (fld : List String),
      v.is_arr = false → v.is_null = false →
      (cb_assign_timeout none = .ok none
        ∧ cb_assign_timeout (some .nullv) = .ok none
        ∧ cb_assign_timeout (some v) =
            .error { ec := Errc.invalid_argument, message := "expected array for options argument" })
      ∧ (cb_assign_durability st none = .ok st
        ∧ cb_assign_durability st (some .nullv) = .ok st
        ∧ cb_assign_durability st (some v) =
            .error { ec := Errc.invalid_argument, message := "expected array for options argument" })
      ∧ (cb_assign_boolean none name = .ok none
        ∧ cb_assign_boolean (some .nullv) name = .ok none
        ∧ cb_assign_boolean (some v) name =
            .error { ec := Errc.invalid_argument, message := "expected array for options argument" })
      ∧ (cb_assign_integer none name = .ok none
        ∧ cb_assign_integer (some .nullv) name = .ok none
        ∧ cb_assign_integer (some v) name =
            .error { ec := Errc.invalid_argument, message := "expected array for options argument" })
      ∧ (cb_assign_string none name = .ok none
        ∧ cb_assign_string (some .nullv) name = .ok none
        ∧ cb_assign_string (some v) name =
            .error { ec := Errc.invalid_argument, message := "expected array for options argument" })
      ∧ (cb_assign_vector_of_strings fld none name = .ok fld
        ∧ cb_assign_vector_of_strings fld (some .nullv) name = .ok fld
        ∧ cb_assign_vector_of_strings fld (some v) name =
            .error { ec := Errc.invalid_argument, message := "expected array for options" })
      ∧ (cb_get_integer none name = .ok 0
        ∧ cb_get_integer (some .nullv) name = .ok 0
        ∧ cb_get_integer (some v) name =
            .error { ec := Errc.invalid_argument, message := "expected array for options argument" })
      ∧ (apply_options none =
            .error { ec := Errc.invalid_argument, message := "expected array for cluster options" }
        ∧ apply_options (some .nullv) =
            .error { ec := Errc.invalid_argument, message := "expected array for cluster options" }) := by
  intro v name st fld ha hn
  cases v with
  | nullv => simp [PhpValue.is_null] at hn
  | arrv entries => simp [PhpValue.is_arr] at ha
  | boolv b =>
    exact ⟨⟨rfl, rfl, rfl⟩, ⟨rfl, rfl, rfl⟩, ⟨rfl, rfl, rfl⟩, ⟨rfl, rfl, rfl⟩,
      ⟨rfl, rfl, rfl⟩, ⟨rfl, rfl, rfl⟩, ⟨rfl, rfl, rfl⟩, rfl, rfl⟩
  | longv n =>
    exact ⟨⟨rfl, rfl, rfl⟩, ⟨rfl, rfl, rfl⟩, ⟨rfl, rfl, rfl⟩, ⟨rfl, rfl, rfl⟩,
      ⟨rfl, rfl, rfl⟩, ⟨rfl, rfl, rfl⟩, ⟨rfl, rfl, rfl⟩, rfl, rfl⟩
  | strv s =>
    exact ⟨⟨rfl, rfl, rfl⟩, ⟨rfl, rfl, rfl⟩, ⟨rfl, rfl, rfl⟩, ⟨rfl, rfl, rfl⟩,
      ⟨rfl, rfl, rfl⟩, ⟨rfl, rfl, rfl⟩, ⟨rfl, rfl, rfl⟩, rfl, rfl⟩

/-- Witness for the null-bag discipline: the boolean helper and
`apply_options` evaluated at concrete inputs through the theorem. -/
theorem option_helpers_null_bag_discipline_witness :
    cb_assign_timeout (some (.strv "x")) =
        .error { ec := Errc.invalid_argument, message := "expected array for options argument" }
      ∧ cb_assign_vector_of_strings ["p"] (some .nullv) "k" = .ok ["p"]
      ∧ apply_options none =
        .error { ec := Errc.invalid_argument, message := "expected array for cluster options" } := by
  have h := option_helpers_null_bag_discipline (.strv "x") "k" {} ["p"] rfl rfl
  exact ⟨h.1.2.2, h.2.2.2.2.2.1.2.1, h.2.2.2.2.2.2.2.1⟩

/-- Counterexample to claim C3 as stated: a query option bag whose
`positionalParameters` key holds a plain string (not a sequence) decodes
successfully — the key is silently skipped instead of producing
`ValidationError{invalid_argument}`. -/
theorem query_scalar_positional_parameters_not_rejected :
    query_decode "q" (some (.arrv [("positionalParameters", .strv "x")])) =
      .ok { statement := "q" } := by
  rfl

/-- Claim C3 (amended): only the get-path `projections` key (decoded via
`cb_assign_vector_of_strings`) rejects a present non-null non-sequence
value with `ValidationError{invalid_argument}` naming the key; the query
keys `positionalParameters`, `namedParameters`, `raw` and `consistentWith`
silently skip such a value and decoding succeeds with the corresponding
request field left unset. -/
theorem sequence_key_shape_validation :
    ∀ (v : PhpValue), v.is_arr = false → v.is_null = false →
      query_decode "q" (some (.arrv [("positionalParameters", v)])) = .ok { statement := "q" }
      ∧ query_decode "q" (some (.arrv [("namedParameters", v)])) = .ok { statement := "q" }
      ∧ query_decode "q" (some (.arrv [("raw", v)])) = .ok { statement := "q" }
      ∧ query_decode "q" (some (.arrv [("consistentWith", v)])) = .ok { statement := "q" }
      ∧ document_get_decode (some (.arrv [("projections", v)])) =
          .error { ec := Errc.invalid_argument
                   message := "expected array for options argument \"projections\"" } := by
  intro v ha hn
  cases v with
  | nullv => simp [PhpValue.is_null] at hn
  | arrv entries => simp [PhpValue.is_arr] at ha
  | boolv b => exact ⟨rfl, rfl, rfl, rfl, rfl⟩
  | longv n => exact ⟨rfl, rfl, rfl, rfl, rfl⟩
  | strv s => exact ⟨rfl, rfl, rfl, rfl, rfl⟩

/-- Witness for the sequence-key shape rule, at an integer-valued key. -/
theorem sequence_key_shape_validation_witness :
    query_decode "q" (some (.arrv [("consistentWith", .longv 7)])) = .ok { statement := "q" }
      ∧ document_get_decode (some (.arrv [("projections", .longv 7)])) =
          .error { ec := Errc.invalid_argument
                   message := "expected array for options argument \"projections\"" } := by
  have h := sequence_key_shape_validation (.longv 7) rfl rfl
  exact ⟨h.2.2.2.1, h.2.2.2.2⟩

/-- Counterexample to claim C4 as stated: a query option bag carrying
`scanConsistency = 0` decodes successfully with the scan-consistency field
left unset — the value `0` is not rejected. -/
theorem query_scan_consistency_zero_not_rejected :
    query_decode "q" (some (.arrv [("scanConsistency", .longv 0)])) =
      .ok { statement := "q" } := by
  rfl

/-- Claim C4 (amended): for a query option bag carrying an integer
`scanConsistency`, the code 1 sets not-bounded, the code 2 sets
request-plus, every other value whose `uint64` cast is positive (so 5, and
also negative `zend_long`s, which cast to huge positive codes) is rejected
with `invalid_argument` reporting the received value, and the value 0 is
silently ignored, leaving the field unset. -/
theorem query_scan_consistency_code_dispatch :
    ∀ (n : Int),
      (to_uint64 n = 1 →
        query_decode "q" (some (.arrv [("scanConsistency", .longv n)])) =
          .ok { statement := "q", scan_consistency := some ScanConsistencyType.not_bounded })
      ∧ (to_uint64 n = 2 →
        query_decode "q" (some (.arrv [("scanConsistency", .longv n)])) =
          .ok { statement := "q", scan_consistency := some ScanConsistencyType.request_plus })
      ∧ (to_uint64 n ≠ 1 → to_uint64 n ≠ 2 → 0 < to_uint64 n →
        query_decode "q" (some (.arrv [("scanConsistency", .longv n)])) =
          .error { ec := Errc.invalid_argument
                   message := s!"invalid value used for scan consistency: {to_uint64 n}" })
      ∧ (to_uint64 n = 0 →
        query_decode "q" (some (.arrv [("scanConsistency", .longv n)])) =
          .ok { statement := "q" }) := by
  intro n
  refine ⟨?_, ?_, ?_, ?_⟩
  · intro h
    unfold to_uint64 at h
    norm_num at h
    simp [query_decode, query_step_timeout, query_step_scan_consistency, query_step_caps,
      query_step_profile, query_step_booleans, query_step_parameters,
      query_step_consistent_with, query_step_tail, cb_assign_timeout, cb_get_integer,
      cb_assign_integer, cb_assign_boolean, cb_assign_string, zfind, zfind_opt, to_uint64, h]
  · intro h
    unfold to_uint64 at h
    norm_num at h
    simp [query_decode, query_step_timeout, query_step_scan_consistency, query_step_caps,
      query_step_profile, query_step_booleans, query_step_parameters,
      query_step_consistent_with, query_step_tail, cb_assign_timeout, cb_get_integer,
      cb_assign_integer, cb_assign_boolean, cb_assign_string, zfind, zfind_opt, to_uint64, h]
  · intro h1 h2 h3
    simp [query_decode, query_step_timeout, query_step_scan_consistency, query_step_caps,
      query_step_profile, query_step_booleans, query_step_parameters,
      query_step_consistent_with, query_step_tail, cb_assign_timeout, cb_get_integer,
      cb_assign_integer, cb_assign_boolean, cb_assign_string, zfind, zfind_opt, h1, h2, h3]
  · intro h
    unfold to_uint64 at h
    norm_num at h
    have hle : n % 18446744073709551616 ≤ 0 := by omega
    have h0 : (n % 18446744073709551616).toNat = 0 := by omega
    simp [query_decode, query_step_timeout, query_step_scan_consistency, query_step_caps,
      query_step_profile, query_step_booleans, query_step_parameters,
      query_step_consistent_with, query_step_tail, cb_assign_timeout, cb_get_integer,
      cb_assign_integer, cb_assign_boolean, cb_assign_string, zfind, zfind_opt, to_uint64, h0,
      Int.not_lt.mpr hle]

/-- Witness for the scan-consistency dispatch: codes 1 and 5 evaluated
through the theorem. -/
theorem query_scan_consistency_code_dispatch_witness :
    query_decode "q" (some (.arrv [("scanConsistency", .longv 1)])) =
        .ok { statement := "q", scan_consistency := some ScanConsistencyType.not_bounded }
      ∧ query_decode "q" (some (.arrv [("scanConsistency", .longv 5)])) =
        .error { ec := Errc.invalid_argument
                 message := "invalid value used for scan consistency: 5" } := by
  refine ⟨(query_scan_consistency_code_dispatch 1).1 (by decide), ?_⟩
  have h := (query_scan_consistency_code_dispatch 5).2.2.1 (by decide) (by decide) (by decide)
  simpa using h

/-- Claim C5: when `durabilityLevel` decodes to a non-"none" level, a
present integer `durabilityTimeoutSeconds` sets the durability timeout;
when the level is the literal "none", or the key is absent or PHP-null,
the `durabilityTimeoutSeconds` key is never consulted — the decoder
succeeds with the timeout field unchanged whatever that key holds in
`entries`. -/
theorem cb_assign_durability_timeout_gating :
    ∀ (st : durability_state) (entries : List (String × PhpValue)) (n : Int),
      (zfind entries "durabilityLevel" = some (.strv "majority") →
        zfind entries "durabilityTimeoutSeconds" = some (.longv n) →
        cb_assign_durability st (some (.arrv entries)) =
          .ok { st with durability_level := DurabilityLevel.majority, durability_timeout := some n })
      ∧ (zfind entries "durabilityLevel" = some (.strv "majorityAndPersistToActive") →
        zfind entries "durabilityTimeoutSeconds" = some (.longv n) →
        cb_assign_durability st (some (.arrv entries)) =
          .ok { st with durability_level := DurabilityLevel.majority_and_persist_to_active
                        durability_timeout := some n })
      ∧ (zfind entries "durabilityLevel" = some (.strv "persistToMajority") →
        zfind entries "durabilityTimeoutSeconds" = some (.longv n) →
        cb_assign_durability st (some (.arrv entries)) =
          .ok { st with durability_level := DurabilityLevel.persist_to_majority
                        durability_timeout := some n })
      ∧ (zfind entries "durabilityLevel" = some (.strv "none") →
        cb_assign_durability st (some (.arrv entries)) =
          .ok { st with durability_level := DurabilityLevel.none })
      ∧ (zfind entries "durabilityLevel" = none →
        cb_assign_durability st (some (.arrv entries)) = .ok st)
      ∧ (zfind entries "durabilityLevel" = some .nullv →
        cb_assign_durability st (some (.arrv entries)) = .ok st) := by
  intro st entries n
  refine ⟨?_, ?_, ?_, ?_, ?_, ?_⟩
  · intro h1 h2
    simp [cb_assign_durability, h1, h2, durability_level_of_string]
  · intro h1 h2
    simp [cb_assign_durability, h1, h2, durability_level_of_string]
  · intro h1 h2
    simp [cb_assign_durability, h1, h2, durability_level_of_string]
  · intro h1
    simp [cb_assign_durability, h1, durability_level_of_string]
  · intro h1
    simp [cb_assign_durability, h1]
  · intro h1
    simp [cb_assign_durability, h1]

/-- Witness for the durability gating: a "majority" level takes the
timeout, a "none" level ignores a `durabilityTimeoutSeconds` entry of the
wrong type without erroring. -/
theorem cb_assign_durability_timeout_gating_witness :
    cb_assign_durability {}
        (some (.arrv [("durabilityLevel", .strv "majority"),
                      ("durabilityTimeoutSeconds", .longv 7)])) =
      .ok { durability_level := DurabilityLevel.majority, durability_timeout := some 7 }
    ∧ cb_assign_durability {}
        (some (.arrv [("durabilityLevel", .strv "none"),
                      ("durabilityTimeoutSeconds", .strv "garbage")])) =
      .ok { durability_level := DurabilityLevel.none } := by
  constructor
  · exact (cb_assign_durability_timeout_gating {}
      [("durabilityLevel", .strv "majority"), ("durabilityTimeoutSeconds", .longv 7)] 7).1 rfl rfl
  · exact (cb_assign_durability_timeout_gating {}
      [("durabilityLevel", .strv "none"), ("durabilityTimeoutSeconds", .strv "garbage")] 0).2.2.2.1 rfl

/-- Claim C6: a `document_exists` response whose engine status is
`document_not_found` yields success with `exists = false` (the engine sets
the response's `exists()` accessor to false when it reports not-found);
any other truthy engine status makes `document_exists` return the
operation error; and every other bridged operation handler of this
translation unit — upsert, plain get, projected get, query, analytics
query, view query, search query, search-index upsert — propagates every
truthy engine status as an error, `document_not_found` included. -/
theorem document_exists_not_found_is_success :
    (∀ resp : exists_response, resp.ctx.ec = some Errc.document_not_found →
      resp.exists_flag = false →
      document_exists_result resp = .ok (exists_output_of resp)
        ∧ (exists_output_of resp).exists_ = false)
    ∧ (∀ resp : exists_response, ∀ e, resp.ctx.ec = some e → e ≠ Errc.document_not_found →
      document_exists_result resp =
        .error { ec := e, message := ""
                 context := some (error_context_variant.kv (build_error_context resp.ctx)) })
    ∧ (∀ resp : upsert_response, ∀ e, resp.ctx.ec = some e →
      isErr (document_upsert_result resp) = true)
    ∧ (∀ resp : get_response, ∀ e, resp.ctx.ec = some e →
      isErr (document_get_result resp) = true)
    ∧ (∀ resp : get_projected_response, ∀ e, resp.ctx.ec = some e →
      isErr (document_get_projected_result resp) = true)
    ∧ (∀ resp : query_response, ∀ e, resp.ctx.ec = some e →
      isErr (query_result resp) = true)
    ∧ (∀ resp : analytics_response, ∀ e, resp.ctx.ec = some e →
      isErr (analytics_query_result resp) = true)
    ∧ (∀ resp : document_view_response, ∀ e, resp.ctx.ec = some e →
      isErr (view_query_result resp) = true)
    ∧ (∀ resp : search_response, ∀ e, resp.ctx.ec = some e →
      isErr (search_query_result resp) = true)
    ∧ (∀ resp : search_index_upsert_response, ∀ e, resp.ctx.ec = some e →
      isErr (search_index_upsert_result resp) = true) := by
  refine ⟨?_, ?_, ?_, ?_, ?_, ?_, ?_, ?_, ?_, ?_⟩
  · intro resp h hf
    constructor
    · simp [document_exists_result, key_value_execute_error, h]
    · simp [exists_output_of, hf]
  · intro resp e h hne
    simp [document_exists_result, key_value_execute_error, h, hne]
  · intro resp e h
    simp [document_upsert_result, key_value_execute_error, h, isErr]
  · intro resp e h
    simp [document_get_result, key_value_execute_error, h, isErr]
  · intro resp e h
    simp [document_get_projected_result, key_value_execute_error, h, isErr]
  · intro resp e h
    simp [query_result, h, isErr]
  · intro resp e h
    simp [analytics_query_result, h, isErr]
  · intro resp e h
    simp [view_query_result, h, isErr]
  · intro resp e h
    simp [search_query_result, h, isErr]
  · intro resp e h
    simp [search_index_upsert_result, h, isErr]

/-- Witness for the exists/not-found behaviour: a not-found response
yields success with `exists = false`; an upsert response with the same
status is an error. -/
theorem document_exists_not_found_is_success_witness :
    document_exists_result { ctx := { ec := some Errc.document_not_found } } =
        .ok { exists_ := false, deleted := false, cas := "0", flags := 0, datatype := 0
              expiry := 0, sequenceNumber := "0" }
      ∧ isErr (document_upsert_result { ctx := { ec := some Errc.document_not_found } }) = true
      ∧ isErr (search_index_upsert_result { ctx := { ec := some (Errc.other_error 7) } }) = true := by
  refine ⟨?_, ?_, ?_⟩
  · exact (document_exists_not_found_is_success.1
      { ctx := { ec := some Errc.document_not_found } } rfl rfl).1
  · exact document_exists_not_found_is_success.2.2.1
      { ctx := { ec := some Errc.document_not_found } } Errc.document_not_found rfl
  · exact document_exists_not_found_is_success.2.2.2.2.2.2.2.2.2
      { ctx := { ec := some (Errc.other_error 7) } } (Errc.other_error 7) rfl

/-- Claim C7: a successful upsert output always carries the hex cas, and
carries the `mutationToken` entry exactly when the response token has a
non-empty bucket name and a strictly positive partition uuid. -/
theorem document_upsert_token_validity_gating :
    ∀ (resp : upsert_response) (out : upsert_output),
      document_upsert_result resp = .ok out →
      (out.mutationToken.isSome ↔
        (resp.token.bucket_name ≠ "" ∧ 0 < resp.token.partition_uuid))
      ∧ out.cas = toHex resp.cas := by
  intro resp out h
  cases hec : resp.ctx.ec with
  | some e =>
    simp [document_upsert_result, key_value_execute_error, hec] at h
  | none =>
    simp [document_upsert_result, key_value_execute_error, hec] at h
    subst h
    constructor
    · have hiff : (is_mutation_token_valid resp.token = true) ↔
          (resp.token.bucket_name ≠ "" ∧ 0 < resp.token.partition_uuid) := by
        simp [is_mutation_token_valid, String.isEmpty_iff]
        intro _
        rw [Bool.eq_false_iff]
        exact not_congr (String.isEmpty_iff _)
      rw [← hiff]
      cases hv : is_mutation_token_valid resp.token <;> simp [hv]
    · rfl

/-- Witness for the upsert token gating: an invalid token (empty bucket
name) is omitted while the cas is still produced; a valid one is kept. -/
theorem document_upsert_token_validity_gating_witness :
    ((none : Option mutation_token_output).isSome ↔
        (("" : String) ≠ "" ∧ 0 < (5 : Nat)))
      ∧ ("a" : String) = toHex 10 := by
  have h := document_upsert_token_validity_gating
    { ctx := {}, cas := 10, token := { partition_uuid := 5 } }
    { cas := "a", mutationToken := none } (by rfl)
  exact h

/-- Claim C9: when the first probe response reports
`service_not_available` and a non-empty bucket name was supplied, the
probe opens the bucket and retries exactly once; a failed bucket open, a
failed retry (any truthy status), or an empty node list on the retry all
yield the empty string (the return type carries no error at all), and the
retry consumes only the second response — responses beyond it never
influence the result. -/
theorem cluster_version_fallback_retries_once :
    ∀ (r1 r2 : cluster_describe_response) (rest rest' : List cluster_describe_response)
      (err : core_error_info) (name : String),
      name ≠ "" → r1.ec = some Errc.service_not_available →
      (cluster_version_impl (r1 :: rest) (some err) name = "")
      ∧ (∀ e, r2.ec = some e → cluster_version_impl (r1 :: r2 :: rest) none name = "")
      ∧ (r2.node_versions = [] → cluster_version_impl (r1 :: r2 :: rest) none name = "")
      ∧ (∀ v vs, r2.ec = none → r2.node_versions = v :: vs →
        cluster_version_impl (r1 :: r2 :: rest) none name = v)
      ∧ (cluster_version_impl (r1 :: r2 :: rest) none name =
          cluster_version_impl (r1 :: r2 :: rest') none name) := by
  intro r1 r2 rest rest' err name hname h1
  refine ⟨?_, ?_, ?_, ?_, ?_⟩
  · simp [cluster_version_impl, h1, hname]
  · intro e h2
    simp [cluster_version_impl, h1, hname, h2]
  · intro h2
    cases he : r2.ec with
    | none => simp [cluster_version_impl, h1, hname, he, h2]
    | some e => simp [cluster_version_impl, h1, hname, he, h2]
  · intro v vs h2 h3
    simp [cluster_version_impl, h1, hname, h2, h3]
  · cases he : r2.ec with
    | none =>
      cases hn : r2.node_versions with
      | nil => simp [cluster_version_impl, h1, hname, he, hn]
      | cons v vs => simp [cluster_version_impl, h1, hname, he, hn]
    | some e => simp [cluster_version_impl, h1, hname, he]

/-- Witness for the cluster-version fallback: a failed bucket open yields
`""`; a successful retry yields the first node's version. -/
theorem cluster_version_fallback_retries_once_witness :
    cluster_version_impl [{ ec := some Errc.service_not_available }]
        (some { ec := Errc.service_not_available }) "travel-sample" = ""
      ∧ cluster_version_impl
          [{ ec := some Errc.service_not_available },
           { ec := none, node_versions := ["7.0.0", "6.6.5"] }] none "travel-sample" = "7.0.0" := by
  constructor
  · exact (cluster_version_fallback_retries_once
      { ec := some Errc.service_not_available } {} [] []
      { ec := Errc.service_not_available } "travel-sample" (by decide) rfl).1
  · exact (cluster_version_fallback_retries_once
      { ec := some Errc.service_not_available }
      { ec := none, node_versions := ["7.0.0", "6.6.5"] } [] []
      { ec := Errc.service_not_available } "travel-sample" (by decide) rfl).2.2.2.1
      "7.0.0" ["6.6.5"] rfl rfl
